import Mathlib

/-!
Verification of the toccami virtual-touchpad driver (src/src/toccami.c).

The write path `dev_write`, the open/release gate (`dev_open` / `dev_release`)
and the per-record processing are embedded as pure Lean functions.  Side
effects on the kernel input subsystem are recorded as a trace of abstract
input-sink calls (`SinkCall`); the mutable driver state (multitouch slot
ownership and the absolute-axis parameters) is threaded explicitly.
-/

namespace Toccami

/-! Constants taken verbatim from toccami.c. -/

def AXIS_X_MIN : Nat := 0
def AXIS_Y_MIN : Nat := 0
def AXIS_X_MAX : Nat := 65536
def AXIS_Y_MAX : Nat := 65536
def MAX_TOUCHES : Nat := 10
def TEMP_RESOLUTION_X : Nat := 100
def TEMP_RESOLUTION_Y : Nat := 100

def TOCCAMI_EVENT_RELEASED : Nat := 0
def TOCCAMI_EVENT_START : Nat := 1
def TOCCAMI_EVENT_DRAG : Nat := 2
def TOCCAMI_EVENT_CHANGE_RESOLUTION : Nat := 3

def TOCCAMI_EVENT_LENGTH : Nat := 8

/-- The two key codes the write path reports (BTN_TOUCH, BTN_TOOL_FINGER). -/
inductive Key
  | btnTouch
  | btnToolFinger
  deriving DecidableEq, Repr

/-- The absolute axes the write path touches. -/
inductive Axis
  | x
  | y
  | mtPositionX
  | mtPositionY
  deriving DecidableEq, Repr

/-- One call made by the driver into the kernel input sink.
`selectSlot` is `input_mt_slot`, `reportKey` is `input_report_key`,
`reportSlotTool` is `input_mt_report_slot_state (MT_TOOL_FINGER, ·)`,
`reportAbs` is `input_report_abs`, `setRes` is `input_abs_set_res`,
`syncFrame` is `input_mt_sync_frame` and `sync` is `input_sync`. -/
inductive SinkCall
  | selectSlot (slot : Int)
  | reportKey (key : Key) (pressed : Bool)
  | reportSlotTool (present : Bool)
  | reportAbs (axis : Axis) (value : Nat)
  | setRes (axis : Axis) (value : Nat)
  | syncFrame
  | sync
  deriving DecidableEq, Repr

/-- Parameters of one absolute axis, as set by `input_set_abs_params` and
`input_abs_set_res` in toccami.c. -/
structure AxisInfo where
  minimum : Nat
  maximum : Nat
  res : Nat
  deriving DecidableEq, Repr

/-- The driver's mutable state: the owner pointer id of each of the
MAX_TOUCHES multitouch slots (`none` = free slot) and the parameters of the
two absolute axes. -/
structure DriverState where
  slots : List (Option Nat)
  absX : AxisInfo
  absY : AxisInfo
  deriving DecidableEq, Repr

def initAxisX : AxisInfo :=
  { minimum := AXIS_X_MIN, maximum := AXIS_X_MAX, res := TEMP_RESOLUTION_X }

def initAxisY : AxisInfo :=
  { minimum := AXIS_Y_MIN, maximum := AXIS_Y_MAX, res := TEMP_RESOLUTION_Y }

/-- State after `toccami_init`: all slots free, axes at the compile-time
ranges and resolutions. -/
def initState : DriverState :=
  { slots := List.replicate MAX_TOUCHES none, absX := initAxisX, absY := initAxisY }

/-- One 8-byte wire record, after the four 16-bit reads in `dev_write`. -/
structure ToccamiRecord where
  x : Nat
  y : Nat
  pointerId : Nat
  eventType : Nat
  deriving DecidableEq, Repr

/-- Little-endian 16-bit read at byte offset `off`, as the
`*(u16 *)(kernelBuffer + off)` casts do on the little-endian targets the
driver runs on. -/
def readU16 (buffer : List Nat) (off : Nat) : Nat :=
  buffer.getD off 0 % 256 + 256 * (buffer.getD (off + 1) 0 % 256)

/-- Record number `i` of the user buffer, as parsed at lines 258-261 of
toccami.c. -/
def decodeRecord (buffer : List Nat) (i : Nat) : ToccamiRecord :=
  { x := readU16 buffer (i * TOCCAMI_EVENT_LENGTH)
    y := readU16 buffer (i * TOCCAMI_EVENT_LENGTH + 2)
    pointerId := readU16 buffer (i * TOCCAMI_EVENT_LENGTH + 4)
    eventType := readU16 buffer (i * TOCCAMI_EVENT_LENGTH + 6) }

/-- Modelled from the spec: `input_mt_get_slot_by_key` is kernel code, not
part of this repository; the spec's SlotTracker contract describes it: return
the slot already owned by `pointerId` if any, otherwise allocate the first
free slot by ascending index, otherwise fail (here: slot `-1`, exactly the
integer the C call feeds to `input_mt_slot` on failure). -/
def getSlotByKey (slots : List (Option Nat)) (pointerId : Nat) :
    Int × List (Option Nat) :=
  match slots.findIdx? (fun s => decide (s = some pointerId)) with
  | some i => (Int.ofNat i, slots)
  | none =>
    match slots.findIdx? (fun s => decide (s = none)) with
    | some i => (Int.ofNat i, slots.set i (some pointerId))
    | none => (-1, slots)

/-- Modelled from the spec: deactivation of the selected slot by
`input_mt_report_slot_state (MT_TOOL_FINGER, 0)` (kernel code); per the
spec's SlotTracker contract, release marks the owning slot inactive and
clears ownership.  A slot index of `-1` names no slot and clears nothing. -/
def clearSlot (slots : List (Option Nat)) (idx : Int) : List (Option Nat) :=
  match idx with
  | Int.ofNat i => slots.set i none
  | _ => slots

/-- The body of the `dev_write` loop for one parsed record
(toccami.c lines 263-288): a ChangeResolution record sets the two axis
resolutions and skips slot handling; every other record first selects the
slot resolved for its pointer id, then a Start/Drag record reports
BTN_TOUCH = 1, BTN_TOOL_FINGER = 0, slot tool present and the two MT
positions, and any other record reports the slot tool as not present. -/
def applyEvent (st : DriverState) (r : ToccamiRecord) :
    DriverState × List SinkCall :=
  if r.eventType = TOCCAMI_EVENT_CHANGE_RESOLUTION then
    ({ st with absX := { st.absX with res := r.x },
               absY := { st.absY with res := r.y } },
     [.setRes .x r.x, .setRes .y r.y])
  else
    let p := getSlotByKey st.slots r.pointerId
    if r.eventType = TOCCAMI_EVENT_START ∨ r.eventType = TOCCAMI_EVENT_DRAG then
      ({ st with slots := p.2 },
       [.selectSlot p.1, .reportKey .btnTouch true, .reportKey .btnToolFinger false,
        .reportSlotTool true, .reportAbs .mtPositionX r.x, .reportAbs .mtPositionY r.y])
    else
      ({ st with slots := clearSlot p.2 p.1 },
       [.selectSlot p.1, .reportSlotTool false])

/-- Sequential application of a list of parsed records, accumulating the
sink-call trace. -/
def applyAll : DriverState → List ToccamiRecord → DriverState × List SinkCall
  | st, [] => (st, [])
  | st, r :: rest =>
    let q := applyEvent st r
    let w := applyAll q.1 rest
    (w.1, q.2 ++ w.2)

/-- The records of a valid buffer, in order. -/
def decodedRecords (buffer : List Nat) : List ToccamiRecord :=
  (List.range (buffer.length / TOCCAMI_EVENT_LENGTH)).map (decodeRecord buffer)

/-- The chunks the loop copies one by one: `none` at position `i` means
`copy_from_user` fails for record `i`. -/
def fetchRecords (buffer : List Nat) (fault : Nat → Bool) (n : Nat) :
    List (Option ToccamiRecord) :=
  (List.range n).map (fun i => if fault i then none else some (decodeRecord buffer i))

/-- The `dev_write` loop: stop with failure at the first faulting copy,
otherwise apply each record in order. -/
def runLoop : DriverState → List (Option ToccamiRecord) →
    Bool × DriverState × List SinkCall
  | st, [] => (true, st, [])
  | st, none :: _ => (false, st, [])
  | st, some r :: rest =>
    let q := applyEvent st r
    let w := runLoop q.1 rest
    (w.1, w.2.1, q.2 ++ w.2.2)

/-- Result of a write (or read) call: the returned byte count, or one of the
two error codes `-EINVAL` / `-EFAULT`. -/
inductive WriteResult
  | ok (bytes : Nat)
  | invalidArgument
  | transferFault
  deriving DecidableEq, Repr

/-- `dev_write` (toccami.c lines 235-295): reject a length that is not a
multiple of 8; otherwise copy and apply the records one by one, returning
`-EFAULT` at the first failing copy; after a full batch emit
`input_mt_sync_frame` then `input_sync` and return the length. -/
def dev_write (st : DriverState) (buffer : List Nat) (fault : Nat → Bool) :
    WriteResult × DriverState × List SinkCall :=
  if buffer.length % TOCCAMI_EVENT_LENGTH ≠ 0 then (.invalidArgument, st, [])
  else
    let w := runLoop st (fetchRecords buffer fault (buffer.length / TOCCAMI_EVENT_LENGTH))
    if w.1 then (.ok buffer.length, w.2.1, w.2.2 ++ [.syncFrame, .sync])
    else (.transferFault, w.2.1, w.2.2)

/-- `dev_read` (toccami.c lines 212-215): always `-EINVAL`, no effects. -/
def dev_read (st : DriverState) : WriteResult × DriverState × List SinkCall :=
  (.invalidArgument, st, [])

/-- Result of `dev_open`: 0 or `-EBUSY`. -/
inductive OpenResult
  | ok
  | busy
  deriving DecidableEq, Repr

/-- The access gate: whether `ebbchar_mutex` is held, and the diagnostic
`numberOpens` counter. -/
structure GateState where
  held : Bool
  numberOpens : Nat
  deriving DecidableEq, Repr

/-- `dev_open` (toccami.c lines 189-200): non-blocking try-lock; `-EBUSY`
without any state change if the mutex is held, otherwise take it and
increment the open counter. -/
def dev_open (g : GateState) : OpenResult × GateState :=
  if g.held then (.busy, g)
  else (.ok, { held := true, numberOpens := g.numberOpens + 1 })

/-- `dev_release` (toccami.c lines 302-306): unlock the mutex. -/
def dev_release (g : GateState) : GateState :=
  { g with held := false }

/-- Whole-driver state: the gate plus the input-device state. -/
structure SystemState where
  gate : GateState
  driver : DriverState

/-- The file operations a client can invoke (the `fops` table minus the
registration boilerplate). -/
inductive Op
  | openOp
  | releaseOp
  | writeOp (buffer : List Nat) (fault : Nat → Bool)
  | readOp

/-- One step of the system: each file operation applied to the state it
touches.  `dev_write` and `dev_read` never touch the gate; `dev_open` and
`dev_release` never touch the input-device state. -/
def step (s : SystemState) (op : Op) : SystemState :=
  match op with
  | .openOp => { s with gate := (dev_open s.gate).2 }
  | .releaseOp => { s with gate := dev_release s.gate }
  | .writeOp buffer fault => { s with driver := (dev_write s.driver buffer fault).2.1 }
  | .readOp => { s with driver := (dev_read s.driver).2.1 }

/-- The effect of one record on the slot pool alone. -/
def slotsStep (slots : List (Option Nat)) (r : ToccamiRecord) : List (Option Nat) :=
  if r.eventType = TOCCAMI_EVENT_CHANGE_RESOLUTION then slots
  else
    let p := getSlotByKey slots r.pointerId
    if r.eventType = TOCCAMI_EVENT_START ∨ r.eventType = TOCCAMI_EVENT_DRAG then p.2
    else clearSlot p.2 p.1

/-- Concrete state used for the saturation scenario: all MAX_TOUCHES slots
owned by the distinct pointer ids 0..9. -/
def fullState : DriverState :=
  { slots := [some 0, some 1, some 2, some 3, some 4,
              some 5, some 6, some 7, some 8, some 9],
    absX := initAxisX, absY := initAxisY }

/-- Concrete system state with the gate free. -/
def sysFree : SystemState :=
  { gate := { held := false, numberOpens := 0 }, driver := initState }

/-- Concrete system state with the gate held. -/
def sysHeld : SystemState :=
  { gate := { held := true, numberOpens := 1 }, driver := initState }

/-! Helper lemmas. -/

theorem applyEvent_slots_eq (st : DriverState) (r : ToccamiRecord) :
    (applyEvent st r).1.slots = slotsStep st.slots r := by
  unfold applyEvent slotsStep
  split
  · rfl
  · split <;> rfl

theorem applyAll_slots_eq : ∀ (rs : List ToccamiRecord) (st : DriverState),
    (applyAll st rs).1.slots = rs.foldl slotsStep st.slots := by
  intro rs
  induction rs with
  | nil => intro st; rfl
  | cons r rest ih =>
    intro st
    show (applyAll (applyEvent st r).1 rest).1.slots = _
    rw [ih, applyEvent_slots_eq, List.foldl_cons]

theorem syncFrame_not_mem_applyEvent (st : DriverState) (r : ToccamiRecord) :
    SinkCall.syncFrame ∉ (applyEvent st r).2 := by
  unfold applyEvent
  split
  · simp
  · split <;> simp

theorem syncFrame_not_mem_applyAll : ∀ (rs : List ToccamiRecord) (st : DriverState),
    SinkCall.syncFrame ∉ (applyAll st rs).2 := by
  intro rs
  induction rs with
  | nil => intro st; simp [applyAll]
  | cons r rest ih =>
    intro st
    show SinkCall.syncFrame ∉ (applyEvent st r).2 ++ (applyAll (applyEvent st r).1 rest).2
    rw [List.mem_append]
    rintro (h | h)
    · exact syncFrame_not_mem_applyEvent st r h
    · exact ih _ h

theorem runLoop_map_some : ∀ (rs : List ToccamiRecord) (st : DriverState),
    runLoop st (rs.map some) = (true, applyAll st rs) := by
  intro rs
  induction rs with
  | nil => intro st; rfl
  | cons r rest ih =>
    intro st
    simp only [List.map_cons, runLoop, ih, applyAll]

theorem runLoop_firstFault : ∀ (rs : List ToccamiRecord) (st : DriverState)
    (tail : List (Option ToccamiRecord)),
    runLoop st (rs.map some ++ none :: tail) = (false, applyAll st rs) := by
  intro rs
  induction rs with
  | nil => intro st tail; rfl
  | cons r rest ih =>
    intro st tail
    simp only [List.map_cons, List.cons_append, runLoop, List.append_eq, ih, applyAll]

theorem fetchRecords_noFault (buffer : List Nat) (fault : Nat → Bool) (n : Nat)
    (h : ∀ i, i < n → fault i = false) :
    fetchRecords buffer fault n = ((List.range n).map (decodeRecord buffer)).map some := by
  unfold fetchRecords
  rw [List.map_map]
  refine List.map_congr_left ?_
  intro i hi
  have hf := h i (List.mem_range.mp hi)
  simp [hf]

theorem fetchRecords_firstFault (buffer : List Nat) (fault : Nat → Bool) {j n : Nat}
    (hj : j < n) (hmin : ∀ k, k < j → fault k = false) (hf : fault j = true) :
    fetchRecords buffer fault n =
      ((List.range j).map (decodeRecord buffer)).map some ++
        none :: ((List.range (n - (j + 1))).map (fun x => j + 1 + x)).map
          (fun i => if fault i then none else some (decodeRecord buffer i)) := by
  obtain ⟨m, rfl⟩ : ∃ m, n = (j + 1) + m := ⟨n - (j + 1), by omega⟩
  unfold fetchRecords
  rw [List.range_add, List.map_append, List.range_succ, List.map_append]
  have h1 : (List.range j).map (fun i => if fault i then none else
      some (decodeRecord buffer i)) = ((List.range j).map (decodeRecord buffer)).map some := by
    rw [List.map_map]
    refine List.map_congr_left ?_
    intro k hk
    have := hmin k (List.mem_range.mp hk)
    simp [this]
  rw [h1]
  simp [hf]

theorem getSlotByKey_existing (slots : List (Option Nat)) (pid : Nat) {i : Nat}
    (h : slots.findIdx? (fun s => decide (s = some pid)) = some i) :
    getSlotByKey slots pid = (Int.ofNat i, slots) := by
  unfold getSlotByKey
  rw [h]

theorem getSlotByKey_saturated (slots : List (Option Nat)) (pid : Nat)
    (hfull : ∀ s ∈ slots, s.isSome = true) (hnew : some pid ∉ slots) :
    getSlotByKey slots pid = (-1, slots) := by
  unfold getSlotByKey
  have h1 : slots.findIdx? (fun s => decide (s = some pid)) = none := by
    rw [List.findIdx?_eq_none_iff]
    intro s hs
    simp only [decide_eq_false_iff_not]
    intro hcontra
    exact hnew (hcontra ▸ hs)
  have h2 : slots.findIdx? (fun s => decide (s = none)) = none := by
    rw [List.findIdx?_eq_none_iff]
    intro s hs
    simp only [decide_eq_false_iff_not]
    intro hcontra
    rw [hcontra] at hs
    have := hfull none hs
    simp at this
  rw [h1, h2]

theorem dev_write_invalid_length (st : DriverState) (buffer : List Nat)
    (fault : Nat → Bool) (h : buffer.length % TOCCAMI_EVENT_LENGTH ≠ 0) :
    dev_write st buffer fault = (.invalidArgument, st, []) := by
  unfold dev_write
  rw [if_pos h]

theorem dev_write_noFault (st : DriverState) (buffer : List Nat) (fault : Nat → Bool)
    (hlen : buffer.length % TOCCAMI_EVENT_LENGTH = 0)
    (hok : ∀ i, i < buffer.length / TOCCAMI_EVENT_LENGTH → fault i = false) :
    dev_write st buffer fault =
      (.ok buffer.length, (applyAll st (decodedRecords buffer)).1,
       (applyAll st (decodedRecords buffer)).2 ++ [.syncFrame, .sync]) := by
  unfold dev_write
  rw [if_neg (by omega), fetchRecords_noFault buffer fault _ hok, runLoop_map_some]
  rfl

theorem dev_write_firstFault (st : DriverState) (buffer : List Nat)
    (fault : Nat → Bool) {j : Nat}
    (hlen : buffer.length % TOCCAMI_EVENT_LENGTH = 0)
    (hj : j < buffer.length / TOCCAMI_EVENT_LENGTH)
    (hf : fault j = true) (hmin : ∀ k, k < j → fault k = false) :
    dev_write st buffer fault =
      (.transferFault, applyAll st ((List.range j).map (decodeRecord buffer))) := by
  unfold dev_write
  rw [if_neg (by omega), fetchRecords_firstFault buffer fault hj hmin hf,
    runLoop_firstFault]
  rfl

/-! The claims. -/

/-- C1 counterexample: a ChangeResolution record with x=500, y=600,
pointerId=42, processed by the write path from the initial state, leaves the
maximum X coordinate at 65536 (it does not become 500) and makes 500 — the
x field, not the pointerId field — the new X-axis resolution, while the
Y-axis resolution becomes 600, so the two axes do not receive one identical
resolution taken from pointerId. -/
theorem C1_counterexample :
    (dev_write initState [244, 1, 88, 2, 42, 0, 3, 0] (fun _ => false)).2.1.absX.maximum
      = 65536 ∧
    ¬ (dev_write initState [244, 1, 88, 2, 42, 0, 3, 0] (fun _ => false)).2.1.absX.maximum
      = 500 ∧
    (dev_write initState [244, 1, 88, 2, 42, 0, 3, 0] (fun _ => false)).2.1.absX.res
      = 500 ∧
    ¬ (dev_write initState [244, 1, 88, 2, 42, 0, 3, 0] (fun _ => false)).2.1.absX.res
      = 42 ∧
    (dev_write initState [244, 1, 88, 2, 42, 0, 3, 0] (fun _ => false)).2.1.absY.res
      = 600 := by
  decide

/-- C1 (amended): for every ChangeResolution event record (eventType=3)
processed by the write path, the record's x field becomes the new reporting
resolution of the horizontal axis and its y field the new reporting
resolution of the vertical axis; the coordinate ranges of both axes are left
unchanged and the pointerId field is ignored. -/
theorem C1_amended_changeResolution (st : DriverState) (r : ToccamiRecord)
    (h : r.eventType = TOCCAMI_EVENT_CHANGE_RESOLUTION) :
    applyEvent st r =
      ({ st with absX := { st.absX with res := r.x },
                 absY := { st.absY with res := r.y } },
       [.setRes .x r.x, .setRes .y r.y]) := by
  unfold applyEvent
  rw [if_pos h]

/-- C1 witness: the amended theorem applied to a concrete ChangeResolution
record. -/
theorem C1_witness :
    applyEvent initState ⟨500, 600, 42, 3⟩ =
      ({ initState with absX := { initState.absX with res := 500 },
                        absY := { initState.absY with res := 600 } },
       [.setRes .x 500, .setRes .y 600]) :=
  C1_amended_changeResolution initState ⟨500, 600, 42, 3⟩ rfl

/-- C2 counterexample: for a Start record (pointerId=5 at (10,20)) processed
from the initial state, the write path reports the "finger" key state
(BTN_TOOL_FINGER) as released, never as pressed. -/
theorem C2_counterexample :
    SinkCall.reportKey Key.btnToolFinger false
      ∈ (applyEvent initState ⟨10, 20, 5, 1⟩).2 ∧
    SinkCall.reportKey Key.btnToolFinger true
      ∉ (applyEvent initState ⟨10, 20, 5, 1⟩).2 := by
  decide

/-- C2 (amended): for every Start (eventType=1) or Drag (eventType=2) event
record processed by the write path, the driver resolves a slot for the
record's pointerId, reports the "touch" key state as pressed and the
"finger" key state as released, reports the slot's tool state as present,
and reports the absolute X and Y position for that slot. -/
theorem C2_amended_startDrag (st : DriverState) (r : ToccamiRecord)
    (h : r.eventType = TOCCAMI_EVENT_START ∨ r.eventType = TOCCAMI_EVENT_DRAG) :
    applyEvent st r =
      ({ st with slots := (getSlotByKey st.slots r.pointerId).2 },
       [.selectSlot (getSlotByKey st.slots r.pointerId).1,
        .reportKey .btnTouch true, .reportKey .btnToolFinger false,
        .reportSlotTool true,
        .reportAbs .mtPositionX r.x, .reportAbs .mtPositionY r.y]) := by
  have h3 : r.eventType ≠ TOCCAMI_EVENT_CHANGE_RESOLUTION := by
    rcases h with h | h <;> rw [h] <;> decide
  unfold applyEvent
  rw [if_neg h3, if_pos h]

/-- C2 witness: the amended theorem applied to a concrete Start record. -/
theorem C2_witness :
    applyEvent initState ⟨10, 20, 5, 1⟩ =
      ({ initState with slots := (getSlotByKey initState.slots 5).2 },
       [.selectSlot (getSlotByKey initState.slots 5).1,
        .reportKey .btnTouch true, .reportKey .btnToolFinger false,
        .reportSlotTool true,
        .reportAbs .mtPositionX 10, .reportAbs .mtPositionY 20]) :=
  C2_amended_startDrag initState ⟨10, 20, 5, 1⟩ (Or.inl rfl)

/-- C3 counterexample: a zero-length buffer is not an exact positive
multiple of 8, yet the write call succeeds (it returns 0, not
InvalidArgument) and produces side effects: the end-of-frame markers are
emitted. -/
theorem C3_counterexample :
    dev_write initState [] (fun _ => false) =
      (WriteResult.ok 0, initState, [SinkCall.syncFrame, SinkCall.sync]) ∧
    (dev_write initState [] (fun _ => false)).1 ≠ WriteResult.invalidArgument ∧
    (dev_write initState [] (fun _ => false)).2.2 ≠ [] := by
  decide

/-- C3 (amended): for every write call whose buffer length is not a multiple
of 8 bytes, the call fails with InvalidArgument and produces zero side
effects (no input-sink call, no state mutation); a zero-length buffer,
however, passes the length check: it succeeds with return value 0, mutates
no state, and emits only the end-of-frame markers. -/
theorem C3_amended_lengthCheck (st : DriverState) (buffer : List Nat)
    (fault : Nat → Bool) (h : buffer.length % TOCCAMI_EVENT_LENGTH ≠ 0) :
    dev_write st buffer fault = (.invalidArgument, st, []) ∧
    dev_write st [] fault = (.ok 0, st, [.syncFrame, .sync]) :=
  ⟨dev_write_invalid_length st buffer fault h, rfl⟩

/-- C3 witness: the amended theorem applied to a 1-byte buffer. -/
theorem C3_witness :
    dev_write initState [7] (fun _ => false) =
      (WriteResult.invalidArgument, initState, []) ∧
    dev_write initState [] (fun _ => false) =
      (WriteResult.ok 0, initState, [.syncFrame, .sync]) :=
  C3_amended_lengthCheck initState [7] (fun _ => false) (by decide)

/-- C7: for every buffer length that is not a multiple of 8, the write call
returns InvalidArgument, the driver state is unchanged (no state mutation,
hence no decode of any record is observable), and no input-sink call occurs.
-/
theorem C7_invalid_length_rejected (st : DriverState) (buffer : List Nat)
    (fault : Nat → Bool) (h : buffer.length % TOCCAMI_EVENT_LENGTH ≠ 0) :
    (dev_write st buffer fault).1 = .invalidArgument ∧
    (dev_write st buffer fault).2.1 = st ∧
    (dev_write st buffer fault).2.2 = [] := by
  rw [dev_write_invalid_length st buffer fault h]
  exact ⟨rfl, rfl, rfl⟩

/-- C7 witness: the theorem applied to a 3-byte buffer. -/
theorem C7_witness :
    (dev_write initState [1, 2, 3] (fun _ => false)).1 = WriteResult.invalidArgument ∧
    (dev_write initState [1, 2, 3] (fun _ => false)).2.1 = initState ∧
    (dev_write initState [1, 2, 3] (fun _ => false)).2.2 = [] :=
  C7_invalid_length_rejected initState [1, 2, 3] (fun _ => false) (by decide)

/-- C4: when obtaining a local copy of record j of a valid buffer fails
mid-batch (every earlier copy succeeding), the call returns TransferFault,
and the final driver state and the emitted sink-call trace are exactly those
of applying the j records that preceded the fault — nothing already applied
is rolled back — and the end-of-frame synchronization marker is not among
the emitted calls. -/
theorem C4_transferFault_partial_batch (st : DriverState) (buffer : List Nat)
    (fault : Nat → Bool) (j : Nat)
    (hlen : buffer.length % TOCCAMI_EVENT_LENGTH = 0)
    (hj : j < buffer.length / TOCCAMI_EVENT_LENGTH)
    (hf : fault j = true) (hmin : ∀ k, k < j → fault k = false) :
    dev_write st buffer fault =
      (.transferFault, applyAll st ((List.range j).map (decodeRecord buffer))) ∧
    SinkCall.syncFrame ∉ (dev_write st buffer fault).2.2 := by
  have h := dev_write_firstFault st buffer fault hlen hj hf hmin
  refine ⟨h, ?_⟩
  rw [h]
  exact syncFrame_not_mem_applyAll _ _

/-- C4 witness: a two-record buffer whose second copy faults: the first
Start event stays applied and no sync marker is emitted. -/
theorem C4_witness :
    dev_write initState [10, 0, 20, 0, 5, 0, 1, 0, 11, 0, 21, 0, 6, 0, 2, 0]
        (fun i => decide (i = 1)) =
      (.transferFault, applyAll initState ((List.range 1).map
        (decodeRecord [10, 0, 20, 0, 5, 0, 1, 0, 11, 0, 21, 0, 6, 0, 2, 0]))) ∧
    SinkCall.syncFrame ∉
      (dev_write initState [10, 0, 20, 0, 5, 0, 1, 0, 11, 0, 21, 0, 6, 0, 2, 0]
        (fun i => decide (i = 1))).2.2 :=
  C4_transferFault_partial_batch initState _ _ 1 (by decide) (by decide) (by decide)
    (fun k hk => by
      have hk0 : k = 0 := by omega
      rw [hk0]
      rfl)

/-- C5: the access gate. From a free gate, an open succeeds and a second
open attempt on the resulting state fails with Busy while the lease is
held; an open after a release succeeds; and over all file operations, open
is the only transition taking the gate from Free to Held and release the
only transition taking it from Held to Free. -/
theorem C5_access_gate (s : SystemState) (op : Op) :
    (s.gate.held = false →
      (dev_open s.gate).1 = .ok ∧ (dev_open (step s .openOp).gate).1 = .busy) ∧
    (dev_open (dev_release s.gate)).1 = .ok ∧
    (s.gate.held = false → (step s op).gate.held = true → op = .openOp) ∧
    (s.gate.held = true → (step s op).gate.held = false → op = .releaseOp) := by
  refine ⟨?_, ?_, ?_, ?_⟩
  · intro h
    constructor
    · unfold dev_open
      rw [h]
      rfl
    · show (dev_open (dev_open s.gate).2).1 = .busy
      unfold dev_open
      rw [h]
      rfl
  · unfold dev_open dev_release
    rfl
  · intro h1 h2
    cases op with
    | openOp => rfl
    | releaseOp => simp [step, dev_release] at h2
    | writeOp buffer fault =>
      simp only [step] at h2
      rw [h1] at h2
      exact absurd h2 (by decide)
    | readOp =>
      simp only [step] at h2
      rw [h1] at h2
      exact absurd h2 (by decide)
  · intro h1 h2
    cases op with
    | openOp =>
      simp only [step, dev_open, h1, if_true] at h2
      exact absurd h2 (by decide)
    | releaseOp => rfl
    | writeOp buffer fault =>
      simp only [step] at h2
      rw [h1] at h2
      exact absurd h2 (by decide)
    | readOp =>
      simp only [step] at h2
      rw [h1] at h2
      exact absurd h2 (by decide)

/-- C5 witness: the gate theorem applied at concrete free and held states.
-/
theorem C5_witness :
    (dev_open sysFree.gate).1 = OpenResult.ok ∧
    (dev_open (step sysFree .openOp).gate).1 = OpenResult.busy ∧
    (dev_open (dev_release sysHeld.gate)).1 = OpenResult.ok ∧
    (Op.openOp = Op.openOp) ∧ (Op.releaseOp = Op.releaseOp) := by
  refine ⟨?_, ?_, ?_, ?_, ?_⟩
  · exact ((C5_access_gate sysFree .openOp).1 rfl).1
  · exact ((C5_access_gate sysFree .openOp).1 rfl).2
  · exact (C5_access_gate sysHeld .openOp).2.1
  · exact (C5_access_gate sysFree .openOp).2.2.1 rfl (by decide)
  · exact (C5_access_gate sysHeld .releaseOp).2.2.2 rfl (by decide)

/-- C6: for every write call with a valid buffer (length a multiple of 8,
every record copy succeeding), the result is the whole batch applied in
order followed by exactly one end-of-frame synchronization marker: the
trace is the per-event trace — which contains no such marker — with the
marker (and the final input_sync) appended after it, and the marker occurs
exactly once in the whole trace. -/
theorem C6_single_sync_marker (st : DriverState) (buffer : List Nat)
    (fault : Nat → Bool)
    (hlen : buffer.length % TOCCAMI_EVENT_LENGTH = 0)
    (hok : ∀ i, i < buffer.length / TOCCAMI_EVENT_LENGTH → fault i = false) :
    dev_write st buffer fault =
      (.ok buffer.length, (applyAll st (decodedRecords buffer)).1,
       (applyAll st (decodedRecords buffer)).2 ++ [.syncFrame, .sync]) ∧
    SinkCall.syncFrame ∉ (applyAll st (decodedRecords buffer)).2 ∧
    ((dev_write st buffer fault).2.2).count SinkCall.syncFrame = 1 := by
  have h := dev_write_noFault st buffer fault hlen hok
  refine ⟨h, syncFrame_not_mem_applyAll _ _, ?_⟩
  rw [h]
  show ((applyAll st (decodedRecords buffer)).2 ++
    [SinkCall.syncFrame, SinkCall.sync]).count SinkCall.syncFrame = 1
  rw [List.count_append, List.count_eq_zero.mpr (syncFrame_not_mem_applyAll _ _)]
  rfl

/-- C6 witness: a three-Start-record buffer for three distinct pointer ids
yields one syncFrame call in the whole trace. -/
theorem C6_witness :
    ((dev_write initState
        [10, 0, 20, 0, 1, 0, 1, 0, 30, 0, 40, 0, 2, 0, 1, 0, 50, 0, 60, 0, 3, 0, 1, 0]
        (fun _ => false)).2.2).count SinkCall.syncFrame = 1 :=
  (C6_single_sync_marker initState
    [10, 0, 20, 0, 1, 0, 1, 0, 30, 0, 40, 0, 2, 0, 1, 0, 50, 0, 60, 0, 3, 0, 1, 0]
    (fun _ => false) (by decide) (fun i _ => rfl)).2.2

/-- C8 counterexample: with all MAX_TOUCHES slots active for the distinct
pointer ids 0..9, a Start event for the new pointer id 100 still makes the
driver issue the absolute position reports for (7, 8) — the event is not
dropped without a position report at the driver's boundary; the reports are
merely directed at no valid slot. -/
theorem C8_counterexample :
    (∀ s ∈ fullState.slots, s.isSome = true) ∧
    SinkCall.reportAbs Axis.mtPositionX 7 ∈ (applyEvent fullState ⟨7, 8, 100, 1⟩).2 ∧
    SinkCall.reportAbs Axis.mtPositionY 8 ∈ (applyEvent fullState ⟨7, 8, 100, 1⟩).2 := by
  decide

/-- C8 (amended): in every state in which all MAX_TOUCHES slots are active
for pointer ids other than the record's, processing a Start event for the
new pointer id leaves every slot assignment unchanged and does not fail: the
driver selects slot -1 (no valid slot) and still issues the key, tool and
position reports, directed at that invalid slot. -/
theorem C8_amended_saturation (st : DriverState) (r : ToccamiRecord)
    (hfull : ∀ s ∈ st.slots, s.isSome = true)
    (hnew : some r.pointerId ∉ st.slots)
    (hstart : r.eventType = TOCCAMI_EVENT_START) :
    (applyEvent st r).1 = st ∧
    (applyEvent st r).2 =
      [.selectSlot (-1), .reportKey .btnTouch true, .reportKey .btnToolFinger false,
       .reportSlotTool true, .reportAbs .mtPositionX r.x, .reportAbs .mtPositionY r.y] := by
  have hk := getSlotByKey_saturated st.slots r.pointerId hfull hnew
  have h3 : r.eventType ≠ TOCCAMI_EVENT_CHANGE_RESOLUTION := by
    rw [hstart]; decide
  unfold applyEvent
  rw [if_neg h3, hk]
  rw [if_pos (Or.inl hstart)]
  exact ⟨rfl, rfl⟩

/-- C8 witness: the amended theorem applied to the saturated state and a
Start record for pointer id 100 at (7, 8). -/
theorem C8_witness :
    (applyEvent fullState ⟨7, 8, 100, 1⟩).1 = fullState ∧
    (applyEvent fullState ⟨7, 8, 100, 1⟩).2 =
      [.selectSlot (-1), .reportKey .btnTouch true, .reportKey .btnToolFinger false,
       .reportSlotTool true, .reportAbs .mtPositionX 7, .reportAbs .mtPositionY 8] :=
  C8_amended_saturation fullState ⟨7, 8, 100, 1⟩ (by decide) (by decide) rfl

/-- C9: a ChangeResolution record (eventType=3) neither allocates nor
releases any slot: processing it leaves the slot pool unchanged, and a
batch with such a record interleaved anywhere reaches exactly the slot
assignments of the same batch without it. -/
theorem C9_changeResolution_slot_independent (st : DriverState) (r : ToccamiRecord)
    (pre post : List ToccamiRecord)
    (h : r.eventType = TOCCAMI_EVENT_CHANGE_RESOLUTION) :
    (applyEvent st r).1.slots = st.slots ∧
    (applyAll st (pre ++ r :: post)).1.slots = (applyAll st (pre ++ post)).1.slots := by
  have hstep : ∀ slots, slotsStep slots r = slots := by
    intro slots
    unfold slotsStep
    rw [if_pos h]
  constructor
  · rw [applyEvent_slots_eq, hstep]
  · rw [applyAll_slots_eq, applyAll_slots_eq, List.foldl_append, List.foldl_append,
      List.foldl_cons, hstep]

/-- C9 witness: a ChangeResolution record between two Start records for
pointer ids 4 and 7 leaves the final slot assignments as without it. -/
theorem C9_witness :
    (applyAll initState
      ([⟨1, 1, 4, 1⟩] ++ (⟨640, 480, 50, 3⟩ : ToccamiRecord) :: [⟨2, 2, 7, 1⟩])).1.slots =
    (applyAll initState ([⟨1, 1, 4, 1⟩] ++ [⟨2, 2, 7, 1⟩])).1.slots :=
  (C9_changeResolution_slot_independent initState ⟨640, 480, 50, 3⟩
    [⟨1, 1, 4, 1⟩] [⟨2, 2, 7, 1⟩] rfl).2

/-- C10: every record whose eventType is neither 1 (Start) nor 2 (Drag) nor
3 (ChangeResolution) — in particular 0 (Released) and everything from 4 up
— is processed as a release: the write path selects the slot resolved for
the record's pointerId and reports that slot's tool state as not present,
and nothing else. -/
theorem C10_default_release (st : DriverState) (r : ToccamiRecord)
    (h1 : r.eventType ≠ TOCCAMI_EVENT_START)
    (h2 : r.eventType ≠ TOCCAMI_EVENT_DRAG)
    (h3 : r.eventType ≠ TOCCAMI_EVENT_CHANGE_RESOLUTION) :
    applyEvent st r =
      ({ st with slots := clearSlot (getSlotByKey st.slots r.pointerId).2
                            (getSlotByKey st.slots r.pointerId).1 },
       [.selectSlot (getSlotByKey st.slots r.pointerId).1, .reportSlotTool false]) := by
  unfold applyEvent
  rw [if_neg h3, if_neg (by rintro (h | h) <;> [exact h1 h; exact h2 h])]

/-- C10 witness: the theorem applied to a Released record (eventType=0) for
pointer id 9. -/
theorem C10_witness :
    applyEvent initState ⟨0, 0, 9, 0⟩ =
      ({ initState with slots := clearSlot (getSlotByKey initState.slots 9).2
                                   (getSlotByKey initState.slots 9).1 },
       [.selectSlot (getSlotByKey initState.slots 9).1, .reportSlotTool false]) :=
  C10_default_release initState ⟨0, 0, 9, 0⟩ (by decide) (by decide) (by decide)

end Toccami
